import Mathlib

/-!
Shallow embedding of the AeroSense weather-fusion and flight-risk core:
`src/utils/aviation.js` (risk scorer, approach classifier),
`src/server/src/services/unifiedWeatherService.js` (fusion),
`src/server/src/services/windborneService.js` (historical normalization),
`src/server/src/services/openskyService.js` (flight acquisition, both the
direct implementation and the fallback-chain implementation).

Modelling conventions: JS numbers are modelled with `ℚ` (threshold logic is
exact; floating-point rounding is out of scope), timestamps with `ℤ` (epoch
milliseconds), JS `null`/`undefined` with `Option`.  Human-readable factor
strings are modelled by the inductive `Factor` (string formatting such as
`toFixed(1)` is presentation, the carried numbers are kept).
-/

namespace AeroSense

/-- Risk levels used across the scorer (JS strings `SAFE`, `CAUTION`,
`DANGER`, `LANDED`, `UNKNOWN`). -/
inductive RiskLevel where
  | SAFE
  | CAUTION
  | DANGER
  | LANDED
  | UNKNOWN
deriving DecidableEq, Repr

/-- Confidence levels (JS strings `low`, `medium`, `high`). -/
inductive Confidence where
  | low
  | medium
  | high
deriving DecidableEq, Repr

/-- Human-readable factor strings pushed by `calculateLandingSafety` and
`calculateFlightRisk`, as an inductive carrying the interpolated numbers. -/
inductive Factor where
  | baseWindGustHigh (base gust : ℚ)
  | highWindSpeed (speed : ℚ)
  | baseWindGust (base gust : ℚ)
  | moderateWindSpeed (speed : ℚ)
  | windSpeedOK (speed : ℚ)
  | significantGusts (gust : ℚ)
  | windUnavailable
  | poorVisibility (v : ℚ)
  | reducedVisibility (v : ℚ)
  | visibilityOK (v : ℚ)
  | staleData (age : ℚ)
  | ageWarning (age : ℚ)
  | recentData (age : ℚ)
  | ageUnknown
  | noWeatherData
  | aircraftOnGround
  | criticalAltitude (ft : ℚ)
  | lowAltitudeHighSpeed (ft kt : ℚ)
  | lowAltitude (ft : ℚ)
  | normalAltitude (ft : ℚ)
  | weatherConditions (r : RiskLevel)
  | highWindsLowAltitude
  | moderateWindsLowAltitude
  | poorVisibilityApproach
  | noFlightData
deriving DecidableEq, Repr

/-- Output of `getWindData(wind_x, wind_y)` in `aviation.js`.  The JS function
returns `null` when either component is `null`, otherwise
`{ speed: Math.hypot(wind_x, wind_y), dir: atan2 ... }`.  `hypot`/`atan2` are
transcendental, so the embedding carries the computed polar form; a
`WeatherInput.wind` of `none` models a `null` component (hence `null` wind). -/
structure WindPolar where
  speed : ℚ
  dir : ℚ
deriving DecidableEq, Repr

/-- The weather point consumed by `calculateLandingSafety`: `wind` is the
`getWindData` result (see `WindPolar`), the remaining fields are the raw
`wind_gust`, `visibility` and `dataAge` properties (`none` models
`null`/`undefined`). -/
structure WeatherInput where
  wind : Option WindPolar
  wind_gust : Option ℚ
  visibility : Option ℚ
  dataAge : Option ℚ
deriving DecidableEq, Repr

/-- JS `value || null` applied to an optional number: `0` is falsy and is
turned into `null` (used for `weatherPoint.wind_gust || null` and
`weatherPoint.visibility || null`). -/
def jsOrNull (o : Option ℚ) : Option ℚ :=
  match o with
  | some q => if q = 0 then none else some q
  | none => none

/-- Result object of `calculateLandingSafety`.  The no-data early return in
the JS omits `riskScore`, `windSpeed`, `windGust`, `visibility`, `dataAge`;
those absent properties are modelled as `none`. -/
structure SafetyResult where
  risk : RiskLevel
  confidence : Confidence
  factors : List Factor
  riskScore : Option ℕ
  windSpeed : Option ℚ
  windGust : Option ℚ
  visibility : Option ℚ
  dataAge : Option ℚ
deriving DecidableEq, Repr

/-- JS test `dataAge !== null && dataAge < 30` used for confidence. -/
def ageFreshQ (dataAge : Option ℚ) : Bool :=
  match dataAge with
  | some a => decide (a < 30)
  | none => false

/-- Embedding of `calculateLandingSafety(weatherPoint)` from
`src/utils/aviation.js` lines 45-156.  The wind block is written as one match
on the (already `|| null`-ed) gust; a present gust `g` with `g ≤ speed` takes
the same branches as the JS (where `windGust && windGust > wind.speed` is
false).  `wind.speed !== null` is always true when `wind` is non-null in the
JS, so the model only matches on `wind`. -/
def calculateLandingSafety (weatherPoint : Option WeatherInput) : SafetyResult :=
  match weatherPoint with
  | none =>
      { risk := .UNKNOWN, confidence := .low, factors := [.noWeatherData],
        riskScore := none, windSpeed := none, windGust := none,
        visibility := none, dataAge := none }
  | some wp =>
      let wind := wp.wind
      let dataAge := wp.dataAge
      let windGust := jsOrNull wp.wind_gust
      let visibility := jsOrNull wp.visibility
      let windPart : ℕ × List Factor :=
        match wind with
        | some w =>
            match windGust with
            | some g =>
                let effectiveSpeed := if g > w.speed then g else w.speed
                let s1 : ℕ × List Factor :=
                  if effectiveSpeed > 25 then
                    (3, [if g > w.speed then Factor.baseWindGustHigh w.speed g
                         else Factor.highWindSpeed effectiveSpeed])
                  else if effectiveSpeed > 15 then
                    (1, [if g > w.speed then Factor.baseWindGust w.speed g
                         else Factor.moderateWindSpeed effectiveSpeed])
                  else (0, [Factor.windSpeedOK effectiveSpeed])
                let s2 : ℕ × List Factor :=
                  if g > w.speed + 5 ∧ ¬ (effectiveSpeed > 15) then
                    (1, [Factor.significantGusts g])
                  else (0, [])
                (s1.1 + s2.1, s1.2 ++ s2.2)
            | none =>
                if w.speed > 25 then (3, [Factor.highWindSpeed w.speed])
                else if w.speed > 15 then (1, [Factor.moderateWindSpeed w.speed])
                else (0, [Factor.windSpeedOK w.speed])
        | none => (1, [Factor.windUnavailable])
      let visPart : ℕ × List Factor :=
        match visibility with
        | some v =>
            if v < 1 then (2, [Factor.poorVisibility v])
            else if v < 3 then (1, [Factor.reducedVisibility v])
            else (0, [Factor.visibilityOK v])
        | none => (0, [])
      let agePart : ℕ × List Factor :=
        match dataAge with
        | some a =>
            if a > 60 then (2, [Factor.staleData a])
            else if a > 30 then (1, [Factor.ageWarning a])
            else (0, [Factor.recentData a])
        | none => (1, [Factor.ageUnknown])
      let riskScore := windPart.1 + visPart.1 + agePart.1
      let rc : RiskLevel × Confidence :=
        if riskScore ≥ 4 then (.DANGER, .high)
        else if riskScore ≥ 2 then
          (.CAUTION, if ageFreshQ dataAge then .high else .medium)
        else if riskScore = 1 then (.CAUTION, .low)
        else (.SAFE, if ageFreshQ dataAge then .high else .medium)
      { risk := rc.1, confidence := rc.2,
        factors := windPart.2 ++ visPart.2 ++ agePart.2,
        riskScore := some riskScore,
        windSpeed :=
          (match wind with
           | some w => if w.speed = 0 then none else some w.speed
           | none => none),
        windGust := windGust, visibility := visibility, dataAge := dataAge }

/-- Flight status strings of `calculateFlightRisk`. -/
inductive FlightStatus where
  | UNKNOWN
  | LANDED
  | CRITICAL
  | LOW
  | NORMAL
deriving DecidableEq, Repr

/-- The flight object consumed by `calculateFlightRisk` (altitude in meters,
velocity in m/s; the function reads only `altitude` and `velocity`). -/
structure FRFlight where
  lat : Option ℚ
  lng : Option ℚ
  altitude : ℚ
  velocity : Option ℚ
  heading : Option ℚ
deriving DecidableEq, Repr

/-- Result object of `calculateFlightRisk`.  The no-flight early return omits
`operationalRisk`, `weatherRisk`, `altitude`, `speed`, `weatherAssessment`;
those absent properties are modelled as `none`. -/
structure FlightRiskResult where
  risk : RiskLevel
  operationalRisk : Option RiskLevel
  weatherRisk : Option RiskLevel
  confidence : Confidence
  factors : List Factor
  flightStatus : FlightStatus
  altitude : Option ℚ
  speed : Option ℚ
  weatherAssessment : Option SafetyResult
deriving DecidableEq, Repr

/-- The lookup `riskLevels[x] || 0` in `calculateFlightRisk`: levels outside
the table (`LANDED`, `UNKNOWN`) coerce to 0, and `SAFE` maps to 0 as well. -/
def riskLevelNum (r : RiskLevel) : ℕ :=
  match r with
  | .CAUTION => 1
  | .DANGER => 2
  | _ => 0

/-- Embedding of `calculateFlightRisk(flight, weatherData)` from
`src/utils/aviation.js` lines 164-269.  `flight.velocity ? velocity * 1.944
: 0` agrees with `(velocity or 0) * 1.944` because the falsy numeric case is
`0`. -/
def calculateFlightRisk (flight : Option FRFlight)
    (weatherData : Option WeatherInput) : FlightRiskResult :=
  match flight with
  | none =>
      { risk := .UNKNOWN, confidence := .low, factors := [.noFlightData],
        flightStatus := .UNKNOWN, operationalRisk := none, weatherRisk := none,
        altitude := none, speed := none, weatherAssessment := none }
  | some f =>
      let altitudeFt := f.altitude * 3.28
      let speedKt := (f.velocity.getD 0) * 1.944
      let opPart : FlightStatus × RiskLevel × List Factor :=
        if f.altitude ≤ 0 then (.LANDED, .LANDED, [Factor.aircraftOnGround])
        else if altitudeFt < 500 then
          (.CRITICAL, .DANGER, [Factor.criticalAltitude altitudeFt])
        else if altitudeFt < 1000 then
          if speedKt > 100 then
            (.LOW, .CAUTION, [Factor.lowAltitudeHighSpeed altitudeFt speedKt])
          else (.LOW, .CAUTION, [Factor.lowAltitude altitudeFt])
        else (.NORMAL, .SAFE, [Factor.normalAltitude altitudeFt])
      let flightStatus := opPart.1
      let operationalRisk := opPart.2.1
      let factors0 := opPart.2.2
      if weatherData.isSome ∧ operationalRisk ≠ RiskLevel.LANDED then
        let wa := calculateLandingSafety weatherData
        let weatherRisk := wa.risk
        let opLevel := riskLevelNum operationalRisk
        let wxLevel := riskLevelNum weatherRisk
        let step1 : RiskLevel × List Factor :=
          if wxLevel > opLevel then
            (weatherRisk, factors0 ++ [Factor.weatherConditions weatherRisk])
          else (operationalRisk, factors0)
        let windHigh : Bool :=
          match wa.windSpeed with
          | some s => decide (s > 25)
          | none => false
        let windModerate : Bool :=
          match wa.windSpeed with
          | some s => decide (s > 15)
          | none => false
        let step2 : RiskLevel × List Factor :=
          if altitudeFt < 1000 ∧ windHigh = true then
            (RiskLevel.DANGER,
             if Factor.highWindsLowAltitude ∈ step1.2 then step1.2
             else step1.2 ++ [Factor.highWindsLowAltitude])
          else if altitudeFt < 1000 ∧ windModerate = true then
            if step1.1 = RiskLevel.SAFE then
              (RiskLevel.CAUTION, step1.2 ++ [Factor.moderateWindsLowAltitude])
            else step1
          else step1
        let visPoor : Bool :=
          match wa.visibility with
          | some v => decide (v < 1)
          | none => false
        let step3 : RiskLevel × List Factor :=
          if visPoor = true ∧ altitudeFt < 1000 then
            ((match step2.1 with
              | RiskLevel.SAFE => RiskLevel.CAUTION
              | RiskLevel.CAUTION => RiskLevel.DANGER
              | r => r),
             step2.2 ++ [Factor.poorVisibilityApproach])
          else step2
        { risk := step3.1, operationalRisk := some operationalRisk,
          weatherRisk := some weatherRisk, confidence := wa.confidence,
          factors := step3.2, flightStatus := flightStatus,
          altitude := some altitudeFt, speed := some speedKt,
          weatherAssessment := some wa }
      else
        { risk := operationalRisk, operationalRisk := some operationalRisk,
          weatherRisk := none, confidence := .medium, factors := factors0,
          flightStatus := flightStatus, altitude := some altitudeFt,
          speed := some speedKt, weatherAssessment := none }

/-- Reason strings returned by `isFlightApproaching`. -/
inductive ApproachReason where
  | invalidData
  | tooLowLanded
  | tooFar
  | noHeadingData
  | headingTowards
  | notHeadingTowards
deriving DecidableEq, Repr

/-- The flight object consumed by `isFlightApproaching` (`lat`/`lng` in
degrees, `altitude` in meters, `track` in degrees, `velocity` in m/s). -/
structure AFlight where
  lat : Option ℚ
  lng : Option ℚ
  altitude : ℚ
  track : Option ℚ
  velocity : Option ℚ
deriving DecidableEq, Repr

/-- A station with coordinates (possibly missing, as the JS guards test). -/
structure AStation where
  lat : Option ℚ
  lng : Option ℚ
deriving DecidableEq, Repr

/-- Options of `isFlightApproaching` with the JS defaults. -/
structure ApproachOptions where
  maxAngleDifference : ℚ := 45
  maxDistance : ℚ := 100
  minAltitude : ℚ := 500
deriving DecidableEq, Repr

/-- Result of `isFlightApproaching`; the early returns omit most properties,
modelled as `none`. -/
structure ApproachResult where
  isApproaching : Bool
  reason : ApproachReason
  bearingToStation : Option ℚ
  angleDifference : Option ℚ
  distance : Option ℚ
  eta : Option ℚ
  altitude : Option ℚ
deriving DecidableEq, Repr

/-- Embedding of `isFlightApproaching(flight, station, options)` from
`src/utils/aviation.js` lines 382-469.  `calculateBearing` and
`calculateDistance` are the transcendental great-circle kernel
(`atan2`/`sin`/`cos`/Haversine); their results at the flight and station
coordinates are supplied as the `bearingToStation` and `distance` parameters
so the classifier stays computable.  Everything after those two calls is
translated literally. -/
def isFlightApproaching (flight : AFlight) (station : AStation)
    (opts : ApproachOptions) (bearingToStation distance : ℚ) : ApproachResult :=
  if flight.lat = none ∨ flight.lng = none ∨
     station.lat = none ∨ station.lng = none then
    { isApproaching := false, reason := .invalidData, bearingToStation := none,
      angleDifference := none, distance := none, eta := none, altitude := none }
  else
    let altitudeFt := flight.altitude * 3.28
    if altitudeFt < opts.minAltitude then
      { isApproaching := false, reason := .tooLowLanded,
        bearingToStation := none, angleDifference := none, distance := none,
        eta := none, altitude := some altitudeFt }
    else if distance > opts.maxDistance then
      { isApproaching := false, reason := .tooFar, bearingToStation := none,
        angleDifference := none, distance := some distance, eta := none,
        altitude := none }
    else
      match flight.track with
      | none =>
          { isApproaching := false, reason := .noHeadingData,
            bearingToStation := some bearingToStation, angleDifference := none,
            distance := some distance, eta := none, altitude := none }
      | some flightTrack =>
          let rawDiff := |flightTrack - bearingToStation|
          let angleDifference := if rawDiff > 180 then 360 - rawDiff else rawDiff
          let effectiveMaxAngle :=
            if distance > 30 then min opts.maxAngleDifference 15
            else if distance > 15 then min opts.maxAngleDifference 20
            else opts.maxAngleDifference
          let isApp : Bool := decide (angleDifference ≤ effectiveMaxAngle)
          let eta : Option ℚ :=
            if isApp then
              match flight.velocity with
              | some v =>
                  if v = 0 then none
                  else
                    let speedKt := v * 1.944
                    if speedKt > 0 then some (distance / speedKt * 60) else none
              | none => none
            else none
          { isApproaching := isApp,
            reason := if isApp then .headingTowards else .notHeadingTowards,
            bearingToStation := some bearingToStation,
            angleDifference := some angleDifference,
            distance := some distance, eta := eta,
            altitude := some altitudeFt }

/-- Source tags used in weather responses (the JS strings METAR, WindBorne, hybrid,
per `WeatherPointSchema`/the fusion code). -/
inductive WSource where
  | METAR
  | WindBorne
  | hybrid
deriving DecidableEq, Repr

/-- A historical weather point (`WeatherPointSchema` in
`src/server/src/utils/validation.js`): `timestamp` is a required ISO string,
modelled as epoch milliseconds; the numeric fields are nullable; the
METAR-specific fields and `source` are optional. -/
structure WPoint where
  timestamp : ℤ
  temperature : Option ℚ
  wind_x : Option ℚ
  wind_y : Option ℚ
  dewpoint : Option ℚ
  pressure : Option ℚ
  precip : Option ℚ
  wind_gust : Option ℚ
  wind_direction : Option ℚ
  visibility : Option ℚ
  source : Option WSource
deriving DecidableEq, Repr

/-- A historical-provider response (`WeatherResponseSchema`): the `points`
series. -/
structure WeatherData where
  points : List WPoint
deriving DecidableEq, Repr

/-- Parsed METAR data produced by `aviationWeatherService.getMETAR`.  The
`timestamp` is optional only because `calculateDataAge` defends against a
missing/falsy value. -/
structure Metar where
  timestamp : Option ℤ
  temperature : Option ℚ
  wind_x : Option ℚ
  wind_y : Option ℚ
  wind_gust : Option ℚ
  wind_direction : Option ℚ
  dewpoint : Option ℚ
  pressure : Option ℚ
  visibility : Option ℚ
  precip : Option ℚ
deriving DecidableEq, Repr

/-- JS `Math.round(a / b)` for an integer quotient with `b > 0`:
`Math.round(x) = ⌊x + 1/2⌋`. -/
def jsRoundDiv (a b : ℤ) : ℤ := Int.fdiv (2 * a + b) (2 * b)

/-- Embedding of `calculateDataAge(timestamp)` from
`unifiedWeatherService.js` lines 11-16: age in minutes, `null` for a
missing/falsy timestamp.  `now` (the JS `new Date()`) is threaded
explicitly; timestamps are epoch milliseconds. -/
def calculateDataAge (timestamp : Option ℤ) (now : ℤ) : Option ℤ :=
  timestamp.map (fun t => jsRoundDiv (now - t) 60000)

/-- JS test `age !== null && age < 30` ("real-time enough"). -/
def ageFresh (age : Option ℤ) : Bool :=
  match age with
  | some a => decide (a < 30)
  | none => false

/-- The object built by `getMostRecentWindBornePoint`: the latest historical
point spread together with the WindBorne source tag, its data age and the
freshness flag. -/
structure WindbornePoint where
  point : WPoint
  dataAge : Option ℤ
  isRealTime : Bool
deriving DecidableEq, Repr

/-- Embedding of `getMostRecentWindBornePoint(windborneData)` from
`unifiedWeatherService.js` lines 23-40: `null` when there is no data or no
points, otherwise the last point of the (already sorted) series, annotated
with its age. -/
def getMostRecentWindBornePoint (windborneData : Option WeatherData)
    (now : ℤ) : Option WindbornePoint :=
  match windborneData with
  | none => none
  | some wd =>
      match wd.points.getLast? with
      | none => none
      | some latest =>
          let age := calculateDataAge (some latest.timestamp) now
          some { point := latest, dataAge := age, isRealTime := ageFresh age }

/-- The `current` point selected by `mergeWeatherData`: either the METAR
object (spread with the METAR source tag, its age and freshness) or the
WindBorne latest point. -/
inductive CurrentPoint where
  | metar (m : Metar) (dataAge : Option ℤ) (isRealTime : Bool)
  | windborne (wp : WindbornePoint)
deriving DecidableEq, Repr

/-- The age recorded on a current point (`currentPoint.dataAge`). -/
def CurrentPoint.age : CurrentPoint → Option ℤ
  | .metar _ a _ => a
  | .windborne wp => wp.dataAge

/-- METAR metadata flags threaded through the merge. -/
structure MetarMetadata where
  metarAttempted : Bool := false
  metarUnavailable : Bool := false
  metarIcaoCode : Option String := none
deriving DecidableEq, Repr

/-- The unified weather response built by `mergeWeatherData`. -/
structure UnifiedWeather where
  points : List WPoint
  current : CurrentPoint
  source : WSource
  dataAge : Option ℤ
  isRealTime : Bool
  station : String
  metarAttempted : Bool
  metarUnavailable : Bool
  metarIcaoCode : Option String
deriving DecidableEq, Repr

/-- The point object appended for a fresh METAR sample
(`unifiedWeatherService.js` lines 110-125); `ts` is the METAR timestamp,
which is present whenever this branch is reached (`metarAge !== null`). -/
def metarToPoint (m : Metar) (ts : ℤ) : WPoint :=
  { timestamp := ts, temperature := m.temperature, wind_x := m.wind_x,
    wind_y := m.wind_y, dewpoint := m.dewpoint, pressure := m.pressure,
    precip := m.precip, wind_gust := m.wind_gust,
    wind_direction := m.wind_direction, visibility := m.visibility,
    source := some .METAR }

/-- Comparator `.sort((a, b) => new Date(a.timestamp) - new
Date(b.timestamp))`: ascending timestamps.  JS `Array.prototype.sort` is a
stable sort, modelled by the (stable) `List.insertionSort`. -/
def tsRel (a b : WPoint) : Prop := a.timestamp ≤ b.timestamp

instance : DecidableRel tsRel := fun p q => inferInstanceAs (Decidable (p.timestamp ≤ q.timestamp))

instance : IsTotal WPoint tsRel := ⟨fun a b => le_total a.timestamp b.timestamp⟩

instance : IsTrans WPoint tsRel :=
  ⟨fun _ _ _ hab hbc => le_trans hab hbc⟩

/-- The base historical series `windborneData?.points || []`. -/
def basePointsOf (windborneData : Option WeatherData) : List WPoint :=
  match windborneData with
  | some wd => wd.points
  | none => []

/-- The unified response built when a fresh METAR sample is selected
(`unifiedWeatherService.js` lines 59-68 and 107-126): METAR is the primary
current point, the source label is `hybrid`, and the METAR-derived point is
appended to the historical series and the whole list sorted by timestamp. -/
def freshMetarResponse (windborneData : Option WeatherData) (stationId : String)
    (meta : MetarMetadata) (m : Metar) (ts a : ℤ) : UnifiedWeather :=
  { points :=
      List.insertionSort tsRel (basePointsOf windborneData ++ [metarToPoint m ts]),
    current := .metar m (some a) true, source := .hybrid, dataAge := some a,
    isRealTime := true, station := stationId,
    metarAttempted := meta.metarAttempted,
    metarUnavailable := meta.metarUnavailable,
    metarIcaoCode := meta.metarIcaoCode }

/-- The unified response built when the WindBorne latest point is selected
as primary (`rt` is the response-level `isRealTime`, true in the fresh
branch, false in the only-WindBorne fallback). -/
def windborneResponse (windborneData : Option WeatherData) (stationId : String)
    (meta : MetarMetadata) (wl : WindbornePoint) (rt : Bool) : UnifiedWeather :=
  { points := basePointsOf windborneData, current := .windborne wl,
    source := .WindBorne, dataAge := wl.dataAge, isRealTime := rt,
    station := stationId, metarAttempted := meta.metarAttempted,
    metarUnavailable := meta.metarUnavailable,
    metarIcaoCode := meta.metarIcaoCode }

/-- The unified response built when a stale METAR sample is selected. -/
def staleMetarResponse (windborneData : Option WeatherData) (stationId : String)
    (meta : MetarMetadata) (m : Metar) (age : Option ℤ) : UnifiedWeather :=
  { points := basePointsOf windborneData, current := .metar m age false,
    source := .METAR, dataAge := age, isRealTime := false,
    station := stationId, metarAttempted := meta.metarAttempted,
    metarUnavailable := meta.metarUnavailable,
    metarIcaoCode := meta.metarIcaoCode }

/-- Embedding of `mergeWeatherData(metarData, windborneData, stationId,
metarMetadata)` from `unifiedWeatherService.js` lines 50-129.  The JS
`if`/`else if` selection chain is written as a nested match on the METAR
candidate and its timestamp; the cases agree branch by branch with the
source order (fresh METAR, fresh WindBorne, stale METAR, stale WindBorne,
no data), and the response objects of the branches are the three builders
above. -/
def mergeWeatherData (metarData : Option Metar)
    (windborneData : Option WeatherData) (stationId : String)
    (meta : MetarMetadata) (now : ℤ) : Option UnifiedWeather :=
  let windborneLatest := getMostRecentWindBornePoint windborneData now
  -- the stale chain shared by the `metarData` present, not-fresh cases:
  -- fresh WindBorne beats stale METAR, which beats nothing
  let staleWithMetar : Metar → Option ℤ → Option UnifiedWeather := fun m age =>
    match windborneLatest with
    | some wl =>
        if wl.isRealTime then
          some (windborneResponse windborneData stationId meta wl true)
        else some (staleMetarResponse windborneData stationId meta m age)
    | none => some (staleMetarResponse windborneData stationId meta m age)
  match metarData with
  | some m =>
      match m.timestamp with
      | some ts =>
          -- metarAge = calculateDataAge(metarData.timestamp) = some a here
          let a := jsRoundDiv (now - ts) 60000
          if a < 30 then
            some (freshMetarResponse windborneData stationId meta m ts a)
          else staleWithMetar m (some a)
      | none => staleWithMetar m none
  | none =>
      match windborneLatest with
      | some wl =>
          if wl.isRealTime then
            some (windborneResponse windborneData stationId meta wl true)
          else some (windborneResponse windborneData stationId meta wl false)
      | none => none

/-- Embedding of the pure normalization step of
`windborneService.getHistoricalWeather` (lines 63-68): keep the points whose
temperature is non-null, strictly below 150 and strictly above -100, sorted
ascending by timestamp. -/
def getHistoricalWeatherPoints (wd : WeatherData) : WeatherData :=
  { points :=
      List.insertionSort tsRel
        (wd.points.filter (fun pt =>
          match pt.temperature with
          | some t => decide (t < 150) && decide (t > -100)
          | none => false)) }

/-- An OpenSky state-vector entry, keeping the indices the normalization
reads: `f[1]` callsign, `f[5]` longitude, `f[6]` latitude, `f[7]`
baro_altitude, `f[9]` velocity, `f[10]` true_track.  A `none` coordinate
models a `null` or non-numeric value (the JS typeof-number
check). -/
structure RawState where
  callsign : Option String
  longitude : Option ℚ
  latitude : Option ℚ
  baroAltitude : Option ℚ
  velocity : Option ℚ
  track : Option ℚ
deriving DecidableEq, Repr

/-- A normalized flight record returned by `getFlights`. -/
structure Flight where
  callsign : Option String
  lng : ℚ
  lat : ℚ
  altitude : Option ℚ
  velocity : Option ℚ
  track : Option ℚ
  distanceToStation : Option ℚ
deriving DecidableEq, Repr

/-- Embedding of `getNearbyDistance(flightLat, flightLng, stationLat,
stationLng)`: `null` beyond 50 km, else the distance.  `dist` stands for the
transcendental Haversine `calculateDistance` to the (fixed) station, as a
function of the flight coordinates. -/
def getNearbyDistance (dist : ℚ → ℚ → ℚ) (flightLat flightLng : ℚ) : Option ℚ :=
  let d := dist flightLat flightLng
  if d > 50 then none else some d

/-- The sort key `(f.distanceToStation || 999)` used by both `getFlights`
implementations: a missing distance, and a distance of exactly `0` (falsy in
JS), both count as 999. -/
def flightSortKey (f : Flight) : ℚ :=
  match f.distanceToStation with
  | some d => if d = 0 then 999 else d
  | none => 999

/-- Comparator of the final `.sort` on flights: ascending by
`flightSortKey` (JS sort is stable, modelled by `List.insertionSort`). -/
def flightRel (a b : Flight) : Prop := flightSortKey a ≤ flightSortKey b

instance : DecidableRel flightRel := fun p q => inferInstanceAs (Decidable (flightSortKey p ≤ flightSortKey q))

instance : IsTotal Flight flightRel :=
  ⟨fun a b => le_total (flightSortKey a) (flightSortKey b)⟩

instance : IsTrans Flight flightRel :=
  ⟨fun _ _ _ hab hbc => le_trans hab hbc⟩

/-- The arrow function of the `.map` step of both `getFlights`
implementations: `null` for missing/non-numeric or out-of-range coordinates
(the mapped-to-`null` entries are removed by the first test of the `.filter`
step, so `map` followed by that test is a `filterMap`), otherwise the flight
record annotated with its distance to the station. -/
def toFlight (dist : ℚ → ℚ → ℚ) (f : RawState) : Option Flight :=
  match f.longitude, f.latitude with
  | some flightLng, some flightLat =>
      if flightLat < -90 ∨ flightLat > 90 ∨
         flightLng < -180 ∨ flightLng > 180 then none
      else
        some { callsign := f.callsign, lng := flightLng, lat := flightLat,
               altitude := f.baroAltitude, velocity := f.velocity,
               track := f.track,
               distanceToStation := getNearbyDistance dist flightLat flightLng }
  | _, _ => none

/-- The remaining tests of the `.filter` step: drop missing-altitude
records, altitudes at or above 5000 m, and missing distances (farther than
50 km). -/
def keepFlight (f : Flight) : Bool :=
  match f.altitude with
  | none => false
  | some alt => if alt ≥ 5000 then false else f.distanceToStation.isSome

/-- Embedding of the `map`/`filter`/`sort` normalization shared verbatim by
both `getFlights` implementations in `openskyService.js` (first
implementation lines 170-220, chain implementation near the end of the
file): drop records with missing or out-of-range coordinates, compute the
distance to the station, drop missing-altitude records, records at or above
5000 m and records farther than 50 km, then sort by `flightSortKey`. -/
def normalizeFlights (dist : ℚ → ℚ → ℚ) (rawFlights : List RawState) :
    List Flight :=
  List.insertionSort flightRel
    ((rawFlights.filterMap (toFlight dist)).filter keepFlight)

/-- The payload both implementations parse out of a provider response
(`OpenSkyResponseSchema`: a `time` and a nullable `states` array; both are
optional here because the chain implementation also accepts raw objects where
either field may be absent). -/
structure OSData where
  time : Option ℤ
  states : Option (List RawState)
deriving DecidableEq, Repr

/-- A JS error as observed by the `catch` blocks: either a plain `Error`
(no `response` property) or an axios error carrying the response status and
the parsed `x-rate-limit-retry-after-seconds` header (`none` when absent). -/
inductive JsError where
  | plain (msg : String)
  | withResponse (status : ℕ) (retryAfterHeader : Option ℤ)
deriving DecidableEq, Repr

/-- Outcome of one upstream HTTP attempt: a network-level failure (axios
throws without a `response`), or a response with its status, optional parsed
body and optional retry-after header. -/
inductive AxiosOutcome where
  | netErr (msg : String)
  | resp (status : ℕ) (data : Option OSData) (retryAfterHeader : Option ℤ)
deriving DecidableEq, Repr

/-- Result of `getFlights`: the normalized list, or the thrown
rate-limited object with `type` RATE_LIMITED and `retryAfterSeconds`. -/
inductive FlightsResult where
  | flights (fs : List Flight)
  | rateLimited (retryAfterSeconds : Option ℤ)
deriving DecidableEq, Repr

/-- Whether a `FlightsResult` is the rate-limited outcome. -/
def FlightsResult.isRateLimited : FlightsResult → Bool
  | .flights _ => false
  | .rateLimited _ => true

/-- Embedding of the first (direct, `apiClient`-based) `getFlights(lat,
lng)` implementation in `openskyService.js`.  `apiClient` sets no
`validateStatus`, so any non-2xx response throws an error carrying the
response; a 429 reaches the rate-limit `catch` branch, every other error
yields an empty list.  Schema parsing is modelled as the already-structured
`OSData`; `parsedData.states || []` is `states.getD []`. -/
def getFlightsDirect (dist : ℚ → ℚ → ℚ) (outcome : AxiosOutcome) :
    FlightsResult :=
  match outcome with
  | .resp status data hdr =>
      if 200 ≤ status ∧ status < 300 then
        .flights (normalizeFlights dist ((data.map (·.states.getD [])).getD []))
      else
        -- apiClient throws with `error.response` attached
        if status = 429 then .rateLimited hdr else .flights []
  | .netErr _ => .flights []

/-- One fallback-chain step under axios `validateStatus: status < 500`:
statuses below 500 are delivered as responses, 5xx and network failures
throw.  A step succeeds when the status is 200 and a body is present; every
thrown error is caught, logged and swallowed (the response object of a
`< 500` status never reaches the outer catch). -/
def chainStep (o : AxiosOutcome) : Option OSData :=
  match o with
  | .netErr _ => none
  | .resp status data _ =>
      if status < 500 then
        match data with
        | some d => if status = 200 then some d else none
        | none => none
      else none

/-- A proxy step additionally checks that a states or a time field is in the data
before accepting the payload (the `contents` double-wrapping is undone
before this check; the model carries the unwrapped payload). -/
def proxyStep (o : AxiosOutcome) : Option OSData :=
  match chainStep o with
  | some d => if d.states.isSome ∨ d.time.isSome then some d else none
  | none => none

/-- Embedding of `tryFetchOpenSky(lat, lng)` from the fallback-chain
implementation in `openskyService.js`: Method 1 (direct with browser
headers), Method 2 (URL-embedded credentials, skipped without credentials),
Method 3 (each proxy in order), Method 4 (ADS-B Exchange, whose transcoded
payload is modelled as an `OSData`).  Each step error is swallowed; on
exhaustion a plain JS Error (all fetch methods failed) is thrown —
never an error carrying a `response`. -/
def tryFetchOpenSky (hasCreds : Bool) (m1 m2 : AxiosOutcome)
    (proxies : List AxiosOutcome) (adsb : AxiosOutcome) :
    Except JsError OSData :=
  match chainStep m1 with
  | some d => .ok d
  | none =>
      match (if hasCreds then chainStep m2 else none) with
      | some d => .ok d
      | none =>
          match proxies.findSome? proxyStep with
          | some d => .ok d
          | none =>
              match chainStep adsb with
              | some d => .ok d
              | none => .error (.plain "All OpenSky fetch methods failed")

/-- Embedding of the second (fallback-chain) `getFlights(lat, lng)`
implementation in `openskyService.js`: run the chain, normalize on success;
on a thrown error, return the rate-limited outcome when the error carries a
429 response, else an empty list. -/
def getFlightsChain (dist : ℚ → ℚ → ℚ) (hasCreds : Bool)
    (m1 m2 : AxiosOutcome) (proxies : List AxiosOutcome)
    (adsb : AxiosOutcome) : FlightsResult :=
  match tryFetchOpenSky hasCreds m1 m2 proxies adsb with
  | .ok data => .flights (normalizeFlights dist (data.states.getD []))
  | .error e =>
      match e with
      | .withResponse 429 hdr => .rateLimited hdr
      | _ => .flights []

/-! Helper predicates and concrete inputs used by the claim theorems. -/

/-- A weather sample whose wind is 26 kt (no gust, no visibility, no data
age), as in claim C2; `d` is the (irrelevant) wind direction. -/
def sample26 (d : ℚ) : WeatherInput :=
  { wind := some { speed := 26, dir := d }, wind_gust := none,
    visibility := none, dataAge := none }

/-- A weather sample with base wind `b`, gust `g`, no visibility and a fresh
(10 min) data age, as in claim C3. -/
def gustSample (b g d : ℚ) : WeatherInput :=
  { wind := some { speed := b, dir := d }, wind_gust := some g,
    visibility := none, dataAge := some 10 }

/-- A concrete flight for the C4 witness: valid coordinates, 300 m altitude
(984 ft), track 18°. -/
def witnessFlight : AFlight :=
  { lat := some 10, lng := some 20, altitude := 300, track := some 18,
    velocity := none }

/-- A concrete station for the C4 witness. -/
def witnessStation : AStation := { lat := some 11, lng := some 21 }


/-- Freshness of the METAR candidate exactly as tested by the selection
chain of `mergeWeatherData`: present, with non-null age below 30 minutes. -/
def metarFreshB (metarData : Option Metar) (now : ℤ) : Bool :=
  match metarData with
  | some m => ageFresh (calculateDataAge m.timestamp now)
  | none => false

/-- Freshness of the WindBorne candidate exactly as tested by the selection
chain of `mergeWeatherData`: a latest point exists and is real-time. -/
def wbFreshB (windborneData : Option WeatherData) (now : ℤ) : Bool :=
  match getMostRecentWindBornePoint windborneData now with
  | some wl => wl.isRealTime
  | none => false

/-- A historical point with all-null readings at a given timestamp and
temperature. -/
def mkPoint (ts : ℤ) (temp : Option ℚ) : WPoint :=
  { timestamp := ts, temperature := temp, wind_x := none, wind_y := none,
    dewpoint := none, pressure := none, precip := none, wind_gust := none,
    wind_direction := none, visibility := none, source := none }

/-- A METAR record with all-null readings at a given timestamp. -/
def mkMetar (ts : Option ℤ) : Metar :=
  { timestamp := ts, temperature := none, wind_x := none, wind_y := none,
    wind_gust := none, wind_direction := none, dewpoint := none,
    pressure := none, visibility := none, precip := none }

/-- A METAR observed 100 minutes before `nowEx` (stale). -/
def staleMetarEx : Metar := mkMetar (some 0)

/-- A historical series whose latest point is 1 minute old at `nowEx`. -/
def freshWbEx : WeatherData := { points := [mkPoint 5940000 (some 10)] }

/-- The evaluation instant for the fusion examples: 100 minutes
(epoch milliseconds). -/
def nowEx : ℤ := 6000000

/-- A METAR whose timestamp equals the single historical point of
`dupWbEx`, observed at `nowDup` (age 0, fresh). -/
def dupMetarEx : Metar := mkMetar (some 100)

/-- A historical series with one point at timestamp 100. -/
def dupWbEx : WeatherData := { points := [mkPoint 100 (some 10)] }

/-- The evaluation instant for the duplicate-timestamp example. -/
def nowDup : ℤ := 100

/-- A historical point with temperature exactly 150 (the upper boundary). -/
def pt150 : WPoint := mkPoint 0 (some 150)

/-- A constant station-distance function (10 km everywhere). -/
def dist10 : ℚ → ℚ → ℚ := fun _ _ => 10

/-- A station-distance function that is 0 at latitude 0 and 10 elsewhere
(realizable by the Haversine: the distance is exactly 0 at the exact station
coordinates). -/
def distZeroAt0 : ℚ → ℚ → ℚ := fun la _ => if la = 0 then 0 else 10

/-- A raw state at latitude 0 (distance 0 under `distZeroAt0`). -/
def rawAt0 : RawState :=
  { callsign := some "A", longitude := some 1, latitude := some 0,
    baroAltitude := some 100, velocity := none, track := none }

/-- A raw state at latitude 5 (distance 10 under `distZeroAt0`). -/
def rawAt5 : RawState :=
  { callsign := some "B", longitude := some 1, latitude := some 5,
    baroAltitude := some 100, velocity := none, track := none }

/-- The normalized flight produced from `rawAt5` under `dist10`. -/
def flightW : Flight :=
  { callsign := some "B", lng := 1, lat := 5, altitude := some 100,
    velocity := none, track := none, distanceToStation := some 10 }

/-- A primary-provider 429 response carrying a 60-second retry-after
header. -/
def resp429 : AxiosOutcome := .resp 429 none (some 60)

/-! Claims about the risk scorer. -/


/-- Claim C2, counterexample: at effective speed 26 kt with no gust, no
visibility and no data age, `calculateLandingSafety` does not return score 3
and level `CAUTION` (the missing data age contributes +1, so the score is 4
and the level `DANGER`). -/
theorem landingSafety26_counterexample :
    ¬ ((calculateLandingSafety (some (sample26 0))).riskScore = some 3 ∧
       (calculateLandingSafety (some (sample26 0))).risk = RiskLevel.CAUTION) := by
  decide

/-- Claim C2 (amended): for a weather sample whose wind components give an
effective speed of 26 kt with no gust, no visibility value and no data-age
value supplied, `calculateLandingSafety` returns score exactly 4 and level
`DANGER` with high confidence: the 26 kt wind adds +3 and the missing data
age adds +1. -/
theorem landingSafety26_score4_danger (d : ℚ) :
    (calculateLandingSafety (some (sample26 d))).riskScore = some 4 ∧
    (calculateLandingSafety (some (sample26 d))).risk = RiskLevel.DANGER ∧
    (calculateLandingSafety (some (sample26 d))).confidence = Confidence.high := by
  refine ⟨rfl, rfl, rfl⟩


/-- Claim C3: when the gust `g` exceeds the base speed `b` by more than 5 kt
and the effective speed (here `g`) already exceeded 15 kt in the
wind-contribution step, the gust-only escalation adds nothing: with no other
degrading factor the total score is exactly the wind contribution, +3 when
`g > 25` and +1 otherwise — in particular exactly 1 for base 16 kt, gust
22 kt. -/
theorem gustEscalation_no_double_count (b g d : ℚ) (h1 : b + 5 < g)
    (h2 : 15 < g) :
    (calculateLandingSafety (some (gustSample b g d))).riskScore
      = some (if 25 < g then 3 else 1) := by
  have hgb : g > b := by linarith
  have hg0 : ¬ g = 0 := by intro h; rw [h] at h2; norm_num at h2
  have hns : ¬ (g > b + 5 ∧ ¬ (g > 15)) := fun hc => hc.2 h2
  have h10a : ¬ ((10:ℚ) > 60) := by norm_num
  have h10b : ¬ ((10:ℚ) > 30) := by norm_num
  unfold calculateLandingSafety jsOrNull gustSample
  simp only [if_neg hg0, if_pos hgb, if_neg hns, if_neg h10a, if_neg h10b]
  by_cases h25 : g > 25
  · simp only [if_pos h25, if_pos h2, gt_iff_lt]
  · simp only [if_neg h25, if_pos h2, gt_iff_lt]

/-- Witness for claim C3 at base 16 kt, gust 22 kt: the hypotheses hold and
the total score is 1 (the wind contribution counted once). -/
theorem gustEscalation_no_double_count_witness :
    (16:ℚ) + 5 < 22 ∧ (15:ℚ) < 22 ∧
    (calculateLandingSafety (some (gustSample 16 22 0))).riskScore = some 1 := by
  refine ⟨by norm_num, by norm_num, ?_⟩
  have h := gustEscalation_no_double_count 16 22 0 (by norm_num) (by norm_num)
  rw [h]
  norm_num

/-- Claim C10: a `null` weather sample yields (without throwing) the
`UNKNOWN`/low-confidence result whose single factor is "No weather data
available", and a `null` flight yields the `UNKNOWN`/low-confidence result
with `flightStatus` `UNKNOWN`, for every accompanying weather argument. -/
theorem null_inputs_unknown :
    calculateLandingSafety none =
      { risk := RiskLevel.UNKNOWN, confidence := Confidence.low,
        factors := [Factor.noWeatherData], riskScore := none,
        windSpeed := none, windGust := none, visibility := none,
        dataAge := none } ∧
    ∀ wd : Option WeatherInput,
      (calculateFlightRisk none wd).risk = RiskLevel.UNKNOWN ∧
      (calculateFlightRisk none wd).confidence = Confidence.low ∧
      (calculateFlightRisk none wd).flightStatus = FlightStatus.UNKNOWN :=
  ⟨rfl, fun _ => ⟨rfl, rfl, rfl⟩⟩

/-! Claims about the approach classifier. -/

/-- Claim C4: for a flight with valid coordinates, altitude at least
`minAltitude` (in feet, after the meters-to-feet conversion), a known track
and distance at most `maxDistance`, `isFlightApproaching` classifies the
flight as approaching exactly when the folded angle difference (normalized
to at most 180°) is within the effective tolerance, which is
`min(maxAngleDifference, 15)` beyond 30 nm, `min(maxAngleDifference, 20)`
between 15 and 30 nm, and the unmodified caller `maxAngleDifference` within 15 nm. -/
theorem approach_banded_tolerance (flight : AFlight) (station : AStation)
    (opts : ApproachOptions) (bearing distance tr : ℚ)
    (hlat : flight.lat ≠ none) (hlng : flight.lng ≠ none)
    (hslat : station.lat ≠ none) (hslng : station.lng ≠ none)
    (halt : ¬ flight.altitude * 3.28 < opts.minAltitude)
    (hdist : ¬ distance > opts.maxDistance)
    (htrack : flight.track = some tr) :
    (isFlightApproaching flight station opts bearing distance).isApproaching
        = true ↔
      (let rawDiff := |tr - bearing|
       let diff := if rawDiff > 180 then 360 - rawDiff else rawDiff
       let tol :=
         if distance > 30 then min opts.maxAngleDifference 15
         else if distance > 15 then min opts.maxAngleDifference 20
         else opts.maxAngleDifference
       diff ≤ tol) := by
  have hval : ¬ (flight.lat = none ∨ flight.lng = none ∨
      station.lat = none ∨ station.lng = none) := by
    intro h
    rcases h with h | h | h | h
    · exact hlat h
    · exact hlng h
    · exact hslat h
    · exact hslng h
  unfold isFlightApproaching
  rw [if_neg hval, if_neg halt, if_neg hdist, htrack]
  simp only [decide_eq_true_iff]



/-- Witness for claim C4: at distance 40 nm with bearing 0° and track 18°
(angle difference 18°), under the default 45° tolerance, the hypotheses hold
and the flight is not approaching (the >30 nm band caps the tolerance at
15°), even though 18° is below the caller default of 45°. -/
theorem approach_banded_tolerance_witness :
    witnessFlight.lat ≠ none ∧ witnessFlight.track = some 18 ∧
    ¬ witnessFlight.altitude * 3.28 < ({} : ApproachOptions).minAltitude ∧
    ¬ (40:ℚ) > ({} : ApproachOptions).maxDistance ∧
    (18:ℚ) ≤ 45 ∧
    (isFlightApproaching witnessFlight witnessStation {} 0 40).isApproaching
      = false := by
  refine ⟨by decide, rfl, by norm_num [witnessFlight], by norm_num, by norm_num, ?_⟩
  have h := approach_banded_tolerance witnessFlight witnessStation {} 0 40 18
    (by decide) (by decide) (by decide) (by decide)
    (by norm_num [witnessFlight]) (by norm_num) rfl
  have hnot : ¬ (let rawDiff := |(18:ℚ) - 0|
      let diff := if rawDiff > 180 then 360 - rawDiff else rawDiff
      let tol :=
        if (40:ℚ) > 30 then min ({} : ApproachOptions).maxAngleDifference 15
        else if (40:ℚ) > 15 then min ({} : ApproachOptions).maxAngleDifference 20
        else ({} : ApproachOptions).maxAngleDifference
      diff ≤ tol) := by norm_num [min_def]
  exact Bool.eq_false_iff.mpr (fun htrue => hnot (h.mp htrue))

/-! Fusion service: helper lemmas describing the branches of
`mergeWeatherData`, shared by the fusion claims. -/

/-- Unfolding of a true `metarFreshB`: a present timestamp with age below
30 minutes. -/
theorem metarFreshB_destruct (m : Metar) (now : ℤ)
    (h : metarFreshB (some m) now = true) :
    ∃ ts, m.timestamp = some ts ∧ jsRoundDiv (now - ts) 60000 < 30 := by
  cases hts : m.timestamp with
  | some ts =>
      refine ⟨ts, rfl, ?_⟩
      simpa [metarFreshB, hts, calculateDataAge, ageFresh] using h
  | none => simp [metarFreshB, hts, calculateDataAge, ageFresh] at h

/-- Unfolding of a true `wbFreshB`: a latest point exists and is real-time. -/
theorem wbFreshB_destruct (wb : Option WeatherData) (now : ℤ)
    (h : wbFreshB wb now = true) :
    ∃ wl, getMostRecentWindBornePoint wb now = some wl ∧ wl.isRealTime = true := by
  cases hwl : getMostRecentWindBornePoint wb now with
  | some wl => exact ⟨wl, rfl, by simpa [wbFreshB, hwl] using h⟩
  | none => simp [wbFreshB, hwl] at h

/-- Branch lemma: a METAR with age below 30 minutes wins the selection. -/
theorem merge_fresh_metar (wb : Option WeatherData) (sid : String)
    (meta : MetarMetadata) (now : ℤ) (m : Metar) (ts : ℤ)
    (hts : m.timestamp = some ts) (hfr : jsRoundDiv (now - ts) 60000 < 30) :
    mergeWeatherData (some m) wb sid meta now =
      some (freshMetarResponse wb sid meta m ts (jsRoundDiv (now - ts) 60000)) := by
  simp [mergeWeatherData, hts, hfr]

/-- Branch lemma: with a non-fresh METAR, a real-time WindBorne latest point
wins the selection. -/
theorem merge_stale_wbfresh (wb : Option WeatherData) (sid : String)
    (meta : MetarMetadata) (now : ℤ) (m : Metar) (wl : WindbornePoint)
    (hnf : metarFreshB (some m) now = false)
    (hwl : getMostRecentWindBornePoint wb now = some wl)
    (hrt : wl.isRealTime = true) :
    mergeWeatherData (some m) wb sid meta now =
      some (windborneResponse wb sid meta wl true) := by
  cases hts : m.timestamp with
  | some ts =>
      have hlt : ¬ jsRoundDiv (now - ts) 60000 < 30 := by
        simp [metarFreshB, hts, calculateDataAge, ageFresh] at hnf
        exact not_lt.mpr hnf
      simp [mergeWeatherData, hts, hlt, hwl, hrt]
  | none => simp [mergeWeatherData, hts, hwl, hrt]

/-- Branch lemma: with a non-fresh METAR and no real-time WindBorne point, the
stale METAR still wins the selection. -/
theorem merge_stale_metar (wb : Option WeatherData) (sid : String)
    (meta : MetarMetadata) (now : ℤ) (m : Metar)
    (hnf : metarFreshB (some m) now = false)
    (hwb : wbFreshB wb now = false) :
    mergeWeatherData (some m) wb sid meta now =
      some (staleMetarResponse wb sid meta m (calculateDataAge m.timestamp now)) := by
  cases hts : m.timestamp with
  | some ts =>
      have hlt : ¬ jsRoundDiv (now - ts) 60000 < 30 := by
        simp [metarFreshB, hts, calculateDataAge, ageFresh] at hnf
        exact not_lt.mpr hnf
      cases hwl : getMostRecentWindBornePoint wb now with
      | some wl =>
          have hrt : wl.isRealTime = false := by
            simpa [wbFreshB, hwl] using hwb
          simp [mergeWeatherData, hts, hlt, hwl, hrt, calculateDataAge]
      | none => simp [mergeWeatherData, hts, hlt, hwl, calculateDataAge]
  | none =>
      cases hwl : getMostRecentWindBornePoint wb now with
      | some wl =>
          have hrt : wl.isRealTime = false := by
            simpa [wbFreshB, hwl] using hwb
          simp [mergeWeatherData, hts, hwl, hrt, calculateDataAge]
      | none => simp [mergeWeatherData, hts, hwl, calculateDataAge]

/-- Branch lemma: with no METAR at all, the WindBorne latest point (fresh or
not) wins the selection. -/
theorem merge_no_metar (wb : Option WeatherData) (sid : String)
    (meta : MetarMetadata) (now : ℤ) (wl : WindbornePoint)
    (hwl : getMostRecentWindBornePoint wb now = some wl) :
    mergeWeatherData none wb sid meta now =
      some (windborneResponse wb sid meta wl wl.isRealTime) := by
  cases hrt : wl.isRealTime with
  | true => simp [mergeWeatherData, hwl, hrt]
  | false => simp [mergeWeatherData, hwl, hrt]

/-- Branch lemma: with no METAR and no WindBorne point the merge returns the
no-data sentinel `null`. -/
theorem merge_none (wb : Option WeatherData) (sid : String)
    (meta : MetarMetadata) (now : ℤ)
    (hwl : getMostRecentWindBornePoint wb now = none) :
    mergeWeatherData none wb sid meta now = none := by
  simp [mergeWeatherData, hwl]

/-- Claim C1: the fusion merge selects `current` by first match wins — a
live (METAR) sample with age below 30 minutes becomes primary with
`isRealTime = true`; otherwise the most recent historical sample, when its
age is below 30 minutes, becomes primary with `isRealTime = true`; otherwise
a stale live sample becomes primary with `isRealTime = false`; otherwise a
stale historical sample becomes primary with `isRealTime = false`; and when
neither source has any sample the result is the `null` sentinel, not an
error. -/
theorem mergeWeatherData_selection (metarData : Option Metar)
    (wb : Option WeatherData) (sid : String) (meta : MetarMetadata) (now : ℤ) :
    (mergeWeatherData metarData wb sid meta now = none ↔
      metarData = none ∧ getMostRecentWindBornePoint wb now = none) ∧
    ∀ u, mergeWeatherData metarData wb sid meta now = some u →
      ((metarFreshB metarData now = true →
          ∃ m, metarData = some m ∧
            u.current = CurrentPoint.metar m (calculateDataAge m.timestamp now) true ∧
            u.isRealTime = true) ∧
       (metarFreshB metarData now = false → wbFreshB wb now = true →
          ∃ wl, getMostRecentWindBornePoint wb now = some wl ∧
            u.current = CurrentPoint.windborne wl ∧ u.isRealTime = true) ∧
       (metarFreshB metarData now = false → wbFreshB wb now = false →
          ∀ m, metarData = some m →
            u.current = CurrentPoint.metar m (calculateDataAge m.timestamp now) false ∧
            u.isRealTime = false) ∧
       (metarData = none → wbFreshB wb now = false →
          ∃ wl, getMostRecentWindBornePoint wb now = some wl ∧
            u.current = CurrentPoint.windborne wl ∧ u.isRealTime = false)) := by
  cases hmd : metarData with
  | none =>
      cases hwl : getMostRecentWindBornePoint wb now with
      | none =>
          rw [merge_none wb sid meta now hwl]
          refine ⟨by simp, fun u hu => absurd hu (by simp)⟩
      | some wl =>
          rw [merge_no_metar wb sid meta now wl hwl]
          refine ⟨by simp, fun u hu => ?_⟩
          rw [Option.some.injEq] at hu
          subst hu
          refine ⟨?_, ?_, ?_, ?_⟩
          · intro hf; simp [metarFreshB] at hf
          · intro _ hwbt
            have hrt : wl.isRealTime = true := by
              simpa [wbFreshB, hwl] using hwbt
            exact ⟨wl, rfl, rfl, by simp [windborneResponse, hrt]⟩
          · intro _ _ m hm; exact absurd hm (by simp)
          · intro _ hwbf
            have hrt : wl.isRealTime = false := by
              simpa [wbFreshB, hwl] using hwbf
            exact ⟨wl, rfl, rfl, by simp [windborneResponse, hrt]⟩
  | some m =>
      by_cases hb : metarFreshB (some m) now = true
      · obtain ⟨ts, hts, hfr⟩ := metarFreshB_destruct m now hb
        rw [merge_fresh_metar wb sid meta now m ts hts hfr]
        refine ⟨by simp, fun u hu => ?_⟩
        rw [Option.some.injEq] at hu
        subst hu
        refine ⟨?_, ?_, ?_, ?_⟩
        · intro _
          exact ⟨m, rfl, by simp [freshMetarResponse, calculateDataAge, hts], rfl⟩
        · intro hf; rw [hf] at hb; cases hb
        · intro hf; rw [hf] at hb; cases hb
        · intro hm; exact absurd hm (by simp)
      · rw [Bool.not_eq_true] at hb
        by_cases hwb : wbFreshB wb now = true
        · obtain ⟨wl, hwl, hrt⟩ := wbFreshB_destruct wb now hwb
          rw [merge_stale_wbfresh wb sid meta now m wl hb hwl hrt]
          refine ⟨by simp, fun u hu => ?_⟩
          rw [Option.some.injEq] at hu
          subst hu
          refine ⟨?_, ?_, ?_, ?_⟩
          · intro hf; rw [hf] at hb; cases hb
          · intro _ _; exact ⟨wl, hwl, rfl, rfl⟩
          · intro _ hf; rw [hf] at hwb; cases hwb
          · intro hm; exact absurd hm (by simp)
        · rw [Bool.not_eq_true] at hwb
          rw [merge_stale_metar wb sid meta now m hb hwb]
          refine ⟨by simp, fun u hu => ?_⟩
          rw [Option.some.injEq] at hu
          subst hu
          refine ⟨?_, ?_, ?_, ?_⟩
          · intro hf; rw [hf] at hb; cases hb
          · intro _ hf; rw [hf] at hwb; cases hwb
          · intro _ _ m2 hm2
            rw [Option.some.injEq] at hm2
            subst hm2
            exact ⟨rfl, rfl⟩
          · intro hm; exact absurd hm (by simp)

/-- Witness for claim C1: with a 100-minute-old METAR and a 1-minute-old
historical series, the fresh historical sample becomes primary with
`isRealTime = true`. -/
theorem mergeWeatherData_selection_witness :
    metarFreshB (some staleMetarEx) nowEx = false ∧
    wbFreshB (some freshWbEx) nowEx = true ∧
    (mergeWeatherData (some staleMetarEx) (some freshWbEx) "S" {} nowEx).map
      (fun u => u.isRealTime) = some true := by
  refine ⟨by decide, by decide, ?_⟩
  cases hm : mergeWeatherData (some staleMetarEx) (some freshWbEx) "S" {} nowEx with
  | none => exact absurd hm (by decide)
  | some u =>
      have h := ((mergeWeatherData_selection (some staleMetarEx) (some freshWbEx)
        "S" {} nowEx).2 u hm).2.1 (by decide) (by decide)
      obtain ⟨wl, hwl, hcur, hrt⟩ := h
      simpa using hrt

/-- Claim C5, counterexample: a fresh METAR with no historical series at all
still gets the source label `hybrid`, not the `METAR` (Live) label the claim
predicts for that case. -/
theorem hybridLabel_counterexample :
    (mergeWeatherData (some dupMetarEx) none "S" {} nowDup).map (fun u => u.source)
      = some WSource.hybrid ∧ WSource.hybrid ≠ WSource.METAR :=
  ⟨by decide, by decide⟩

/-- Claim C5 (amended): whenever a fresh live (METAR) sample is selected as
primary, the source label of the fusion output is always `hybrid`, whether or not
a historical series exists. -/
theorem hybridLabel_always (metarData : Option Metar) (wb : Option WeatherData)
    (sid : String) (meta : MetarMetadata) (now : ℤ)
    (hfresh : metarFreshB metarData now = true) :
    (mergeWeatherData metarData wb sid meta now).map (fun u => u.source)
      = some WSource.hybrid := by
  cases metarData with
  | none => simp [metarFreshB] at hfresh
  | some m =>
      obtain ⟨ts, hts, hfr⟩ := metarFreshB_destruct m now hfresh
      rw [merge_fresh_metar wb sid meta now m ts hts hfr]
      rfl

/-- Witness for the amended claim C5: a fresh METAR together with a
historical series yields the `hybrid` label. -/
theorem hybridLabel_always_witness :
    metarFreshB (some dupMetarEx) nowDup = true ∧
    (mergeWeatherData (some dupMetarEx) (some dupWbEx) "S" {} nowDup).map
      (fun u => u.source) = some WSource.hybrid :=
  ⟨by decide,
   hybridLabel_always (some dupMetarEx) (some dupWbEx) "S" {} nowDup (by decide)⟩

/-- Claim C9, counterexample: a fresh METAR whose timestamp equals the single
historical point timestamp is appended without deduplication — the output
`points` holds two entries with the same timestamp 100. -/
theorem points_duplicate_counterexample :
    (mergeWeatherData (some dupMetarEx) (some dupWbEx) "S" {} nowDup).map
      (fun u => u.points.map (fun p => p.timestamp)) = some [100, 100] ∧
    (mergeWeatherData (some dupMetarEx) (some dupWbEx) "S" {} nowDup).map
      (fun u => decide (u.points.Pairwise (fun a b => a.timestamp ≠ b.timestamp)))
      = some false :=
  ⟨by decide, by decide⟩

/-- Claim C9 (amended): the `points` of every fusion output are the
historical series as provided when no fresh METAR is selected; when a fresh
METAR is selected, `points` is a permutation of the historical series plus
the single METAR-derived point, sorted ascending by timestamp (the live
point is inserted in timestamp order and added exactly once, but an existing
historical entry with the same timestamp is kept alongside it). -/
theorem points_series (metarData : Option Metar) (wb : Option WeatherData)
    (sid : String) (meta : MetarMetadata) (now : ℤ) :
    ∀ u, mergeWeatherData metarData wb sid meta now = some u →
      ((metarFreshB metarData now = false → u.points = basePointsOf wb) ∧
       (metarFreshB metarData now = true →
          ∃ m ts, metarData = some m ∧ m.timestamp = some ts ∧
            u.points.Perm (basePointsOf wb ++ [metarToPoint m ts]) ∧
            u.points.Sorted tsRel)) := by
  intro u hu
  cases hmd : metarData with
  | none =>
      rw [hmd] at hu
      constructor
      · intro _
        cases hwl : getMostRecentWindBornePoint wb now with
        | none => rw [merge_none wb sid meta now hwl] at hu; cases hu
        | some wl =>
            rw [merge_no_metar wb sid meta now wl hwl] at hu
            rw [Option.some.injEq] at hu
            subst hu
            rfl
      · intro hf; simp [metarFreshB] at hf
  | some m =>
      rw [hmd] at hu
      by_cases hb : metarFreshB (some m) now = true
      · obtain ⟨ts, hts, hfr⟩ := metarFreshB_destruct m now hb
        rw [merge_fresh_metar wb sid meta now m ts hts hfr] at hu
        rw [Option.some.injEq] at hu
        subst hu
        constructor
        · intro hf; rw [hf] at hb; cases hb
        · intro _
          refine ⟨m, ts, rfl, hts, ?_, ?_⟩
          · exact List.perm_insertionSort tsRel _
          · exact List.sorted_insertionSort tsRel _
      · rw [Bool.not_eq_true] at hb
        constructor
        · intro _
          by_cases hwb : wbFreshB wb now = true
          · obtain ⟨wl, hwl, hrt⟩ := wbFreshB_destruct wb now hwb
            rw [merge_stale_wbfresh wb sid meta now m wl hb hwl hrt] at hu
            rw [Option.some.injEq] at hu
            subst hu
            rfl
          · rw [Bool.not_eq_true] at hwb
            rw [merge_stale_metar wb sid meta now m hb hwb] at hu
            rw [Option.some.injEq] at hu
            subst hu
            rfl
        · intro hf; rw [hf] at hb; cases hb

/-- Witness for the amended claim C9: with a fresh METAR the output `points`
list is sorted by timestamp. -/
theorem points_series_witness :
    metarFreshB (some dupMetarEx) nowDup = true ∧
    (mergeWeatherData (some dupMetarEx) (some dupWbEx) "S" {} nowDup).map
      (fun u => decide (u.points.Sorted tsRel)) = some true := by
  refine ⟨by decide, ?_⟩
  cases hm : mergeWeatherData (some dupMetarEx) (some dupWbEx) "S" {} nowDup with
  | none => exact absurd hm (by decide)
  | some u =>
      have h := ((points_series (some dupMetarEx) (some dupWbEx) "S" {} nowDup)
        u hm).2 (by decide)
      obtain ⟨m, ts, hm1, hts, hperm, hsorted⟩ := h
      simpa using decide_eq_true hsorted

/-- Claim C6 (amended): the historical-provider normalization retains
exactly the points whose temperature is present and strictly between -100
and 150 (the boundary values themselves are discarded by the strict
comparisons), and returns them sorted ascending by timestamp. -/
theorem historicalNormalization (wd : WeatherData) :
    (∀ p, p ∈ (getHistoricalWeatherPoints wd).points ↔
       (p ∈ wd.points ∧ ∃ t, p.temperature = some t ∧ -100 < t ∧ t < 150)) ∧
    (getHistoricalWeatherPoints wd).points.Sorted tsRel := by
  constructor
  · intro p
    simp only [getHistoricalWeatherPoints, List.mem_insertionSort, List.mem_filter]
    refine and_congr_right (fun _ => ?_)
    cases ht : p.temperature with
    | some t => simp [ht, and_comm]
    | none => simp [ht]
  · exact List.sorted_insertionSort tsRel _

/-- Claim C6, counterexample: a point with temperature exactly 150 — which
the claim says is retained — is discarded by the strict `< 150` filter. -/
theorem historicalNormalization_counterexample :
    pt150.temperature = some 150 ∧
    pt150 ∈ ({ points := [pt150] } : WeatherData).points ∧
    pt150 ∉ (getHistoricalWeatherPoints { points := [pt150] }).points :=
  ⟨by decide, by decide, by decide⟩

/-- The fallback chain only ever throws a plain error: every per-method
failure is swallowed, and the exhaustion error carries no response, so no
429 response can reach the rate-limit handler of the chain `getFlights`. -/
theorem tryFetchOpenSky_error_plain (hasCreds : Bool) (m1 m2 : AxiosOutcome)
    (proxies : List AxiosOutcome) (adsb : AxiosOutcome) (e : JsError)
    (h : tryFetchOpenSky hasCreds m1 m2 proxies adsb = .error e) :
    e = .plain "All OpenSky fetch methods failed" := by
  unfold tryFetchOpenSky at h
  cases h1 : chainStep m1 with
  | some d => simp [h1] at h
  | none =>
      simp only [h1] at h
      cases h2 : (if hasCreds then chainStep m2 else none) with
      | some d => simp [h2] at h
      | none =>
          simp only [h2] at h
          cases h3 : proxies.findSome? proxyStep with
          | some d => simp [h3] at h
          | none =>
              simp only [h3] at h
              cases h4 : chainStep adsb with
              | some d => simp [h4] at h
              | none =>
                  simp only [h4, Except.error.injEq] at h
                  exact h.symm

/-- Claim C7 (amended): in the direct implementation, a 429 response yields
the structured rate-limited outcome carrying the parsed retry-after header
(`none` when the header is absent); in the fallback-chain implementation a
429 from any step is swallowed as a step failure (`validateStatus` accepts
statuses below 500), so that `getFlights` never returns the rate-limited
outcome. -/
theorem rateLimited_handling :
    (∀ (dist : ℚ → ℚ → ℚ) (data : Option OSData) (hdr : Option ℤ),
        getFlightsDirect dist (.resp 429 data hdr) = .rateLimited hdr) ∧
    (∀ (dist : ℚ → ℚ → ℚ) (hasCreds : Bool) (m1 m2 : AxiosOutcome)
        (proxies : List AxiosOutcome) (adsb : AxiosOutcome),
        (getFlightsChain dist hasCreds m1 m2 proxies adsb).isRateLimited = false) := by
  constructor
  · intro dist data hdr
    rfl
  · intro dist hasCreds m1 m2 proxies adsb
    unfold getFlightsChain
    cases hres : tryFetchOpenSky hasCreds m1 m2 proxies adsb with
    | ok d => simp [FlightsResult.isRateLimited]
    | error e =>
        have he := tryFetchOpenSky_error_plain hasCreds m1 m2 proxies adsb e hres
        subst he
        simp [FlightsResult.isRateLimited]

/-- Claim C7, counterexample: in the fallback-chain implementation, a 429
from the primary provider with a 60-second retry-after header ends in an
empty flight list after chain exhaustion, not in the rate-limited
outcome. -/
theorem rateLimited_chain_counterexample :
    getFlightsChain dist10 false resp429 (.netErr "m2") [] (.netErr "adsb")
      = .flights [] ∧
    FlightsResult.flights [] ≠ FlightsResult.rateLimited (some 60) :=
  ⟨by decide, by decide⟩

/-- Claim C8 (amended): every record in the normalized flight list has
latitude in [-90, 90], longitude in [-180, 180], a present altitude
strictly below 5000 and a present distance of at most 50 km, and the list is
sorted ascending by the JS sort key `distanceToStation || 999` (a distance
of exactly 0 is falsy and sorts as 999). -/
theorem flights_output_invariants (dist : ℚ → ℚ → ℚ) (raw : List RawState) :
    (∀ f ∈ normalizeFlights dist raw,
       -90 ≤ f.lat ∧ f.lat ≤ 90 ∧ -180 ≤ f.lng ∧ f.lng ≤ 180 ∧
       (∃ alt, f.altitude = some alt ∧ alt < 5000) ∧
       (∃ d, f.distanceToStation = some d ∧ d ≤ 50)) ∧
    (normalizeFlights dist raw).Sorted flightRel := by
  constructor
  · intro f hf
    have hf2 : f ∈ (raw.filterMap (toFlight dist)).filter keepFlight := by
      simpa [normalizeFlights, List.mem_insertionSort] using hf
    rw [List.mem_filter] at hf2
    obtain ⟨hmem, hkeep⟩ := hf2
    rw [List.mem_filterMap] at hmem
    obtain ⟨s, _, hs⟩ := hmem
    unfold toFlight at hs
    cases hlng : s.longitude with
    | none => simp [hlng] at hs
    | some lng =>
        cases hlat : s.latitude with
        | none => simp [hlng, hlat] at hs
        | some lat =>
            simp only [hlng, hlat] at hs
            by_cases hrange : lat < -90 ∨ lat > 90 ∨ lng < -180 ∨ lng > 180
            · rw [if_pos hrange] at hs; cases hs
            · rw [if_neg hrange] at hs
              rw [Option.some.injEq] at hs
              subst hs
              push_neg at hrange
              obtain ⟨h1, h2, h3, h4⟩ := hrange
              unfold keepFlight at hkeep
              cases halt : s.baroAltitude with
              | none => simp [halt] at hkeep
              | some alt =>
                  simp only [halt] at hkeep
                  by_cases h5 : alt ≥ 5000
                  · rw [if_pos h5] at hkeep; cases hkeep
                  · rw [if_neg h5] at hkeep
                    refine ⟨h1, h2, h3, h4, ⟨alt, by simp [halt], not_le.mp h5⟩, ?_⟩
                    unfold getNearbyDistance at hkeep ⊢
                    by_cases h6 : dist lat lng > 50
                    · rw [if_pos h6] at hkeep; cases hkeep
                    · rw [if_neg h6] at hkeep
                      exact ⟨dist lat lng, by simp [h6], not_lt.mp h6⟩
  · exact List.sorted_insertionSort flightRel _

/-- Witness for the amended claim C8: a concrete valid record appears in the
output and satisfies the coordinate and distance bounds. -/
theorem flights_output_invariants_witness :
    flightW ∈ normalizeFlights dist10 [rawAt5] ∧
    -90 ≤ flightW.lat ∧ flightW.lat ≤ 90 ∧
    (∃ d, flightW.distanceToStation = some d ∧ d ≤ 50) := by
  have hmem : flightW ∈ normalizeFlights dist10 [rawAt5] := by decide
  have h := (flights_output_invariants dist10 [rawAt5]).1 flightW hmem
  exact ⟨hmem, h.1, h.2.1, h.2.2.2.2.2⟩

/-- Claim C8, counterexample: with one flight at distance exactly 0 (its
falsy distance sorts as 999) and one at distance 10, the output is
[10, 0] — not sorted ascending by `distanceToStation` as the claim
states. -/
theorem flights_sort_zero_counterexample :
    (normalizeFlights distZeroAt0 [rawAt0, rawAt5]).map (fun f => f.distanceToStation)
      = [some 10, some 0] ∧
    ¬ (normalizeFlights distZeroAt0 [rawAt0, rawAt5]).Sorted
        (fun a b => a.distanceToStation.getD 0 ≤ b.distanceToStation.getD 0) :=
  ⟨by decide, by decide⟩

end AeroSense
